import Mathlib

/-!
Verification of the variable-mapping resolution and model-layout derivation
engine of `research-workflow-desktop` (`src/App.tsx`, component
`AnalysisCreateFromInputs` and its helper functions).

The embedding is shallow: every helper function of the source component is
translated into an executable Lean definition over explicit data structures.
JavaScript conventions that matter to the logic are made explicit:
  * string truthiness (`""`, `null`, `undefined` are falsy) is modelled by
    `truthyS : Option String → Option String`, which collapses `some ""`
    to `none`;
  * the `a || b || null` fallback chains are modelled by `jsOrS`;
  * record objects (`Record<string, string>`) are modelled by association
    lists with first-match lookup; an assignment conses on the front, so a
    later assignment shadows an earlier one, as in JavaScript;
  * candidate scores (`number` in `[0,1]`) are modelled by rationals: all
    the thresholds compared against are short decimal literals, and the
    comparisons in the source are order-isomorphic to the rational ones;
  * `Array.prototype.sort()`'s default comparator (UTF-16 code-unit
    lexicographic order) is modelled by `charsLtb` on the character lists
    of the strings (all column names involved are ASCII, where code-unit
    order and code-point order agree), and sorting by an insertion sort,
    which agrees with any sort under this antisymmetric total order;
  * `new Set(...)` iteration order (first-insertion order) is modelled by
    `dedupFirst`.
-/

namespace RW

/-- A scored candidate column for one prereg variable
(`{ key: string; score: number }` in `src/App.tsx`). -/
structure Candidate where
  key : String
  score : ℚ
deriving DecidableEq

/-- One entry of `spec.variableMappings`. `resolvedTo` is
`string | null`; `some ""` is possible in the raw data and is treated as
falsy wherever the source tests it. -/
structure VariableMapping where
  preregVar : String
  resolvedTo : Option String
  candidates : List Candidate
deriving DecidableEq

/-- One entry of `spec.warnings`
(`{ code, message, details: { preregVar? } }`). -/
structure SpecWarning where
  code : String
  message : String
  detailsPreregVar : Option String
deriving DecidableEq

/-- One entry of `spec.models.main`, as consumed by
`buildLayoutsFromExtractedModels` and `seedManualSelections`. -/
structure ExtractedModel where
  id : String
  family : String
  dv : String
  iv : List String
  controls : List String
  interactions : List String
deriving DecidableEq

/-- The analysis spec, restricted to the fields the component reads.
`robustnessCount` and `exploratoryCount` stand for
`spec.models.robustness?.length` and `spec.models.exploratory?.length`:
only the lengths are ever consulted by the source. -/
structure AnalysisSpec where
  variableMappings : List VariableMapping
  mainModels : List ExtractedModel
  robustnessCount : Nat
  exploratoryCount : Nat
  expectedColumns : List String
  warnings : List SpecWarning
deriving DecidableEq

/-- Confidence tier of a mapping row. -/
inductive Confidence where
  | high
  | medium
  | low
deriving DecidableEq

/-- The `ModelType` union of `src/types/analysisTemplate`. -/
inductive ModelType where
  | ols
  | logit
  | poisson
  | negbin
  | mixed_effects
  | fixed_effects
  | survival
  | rd
  | did
  | event_study
deriving DecidableEq

/-- A derived model layout (`ModelLayout` of `src/types/analysisTemplate`,
with the fields the component produces; `layout` is the literal
`"simple"`/`"interaction"` string of the source). -/
structure ModelLayout where
  name : String
  modelType : ModelType
  outcomeVar : String
  treatmentVar : String
  layout : String
  interactionVar : String
  covariates : String
  idVar : String
  timeVar : String
  figures : List String
  includeInMainTable : Bool
deriving DecidableEq

/-- A `Record<string, string>` value: association list, first match wins. -/
abbrev Selections : Type := List (String × String)

/-- JavaScript property read `m[k]`: `none` models `undefined`. -/
def recGet (m : Selections) (k : String) : Option String :=
  match m with
  | [] => none
  | (k', v) :: rest => if k' = k then some v else recGet rest k

/-- JavaScript property write `m[k] = v`: the new pair shadows older ones. -/
def recSet (m : Selections) (k v : String) : Selections :=
  (k, v) :: m

/-- String truthiness: collapse the falsy string `""` (and `undefined` /
`null`, i.e. `none`) to `none`. -/
def truthyS : Option String → Option String
  | some s => if s = "" then none else some s
  | none => none

/-- The JavaScript fallback chain `a || b || null` on nullable strings. -/
def jsOrS (a b : Option String) : Option String :=
  match truthyS a with
  | some s => some s
  | none => truthyS b

/-- The truthy value a selections record holds for a key
(`selections[k]` used in a boolean/fallback position). -/
def selValue (sel : Selections) (k : String) : Option String :=
  truthyS (recGet sel k)

/-- `const mapVar = (value) => selectedMappings[value] || value` of
`seedManualSelections` / `buildLayoutsFromExtractedModels`. -/
def mapVar (sel : Selections) (v : String) : String :=
  match selValue sel v with
  | some s => s
  | none => v

/-- `HIGH_CONFIDENCE = 0.9` (`src/App.tsx`). -/
def HIGH_CONFIDENCE : ℚ := mkRat 9 10

/-- `MEDIUM_CONFIDENCE = 0.75` (`src/App.tsx`). -/
def MEDIUM_CONFIDENCE : ℚ := mkRat 3 4

/-- A derived mapping row (`MappingRow` of `src/App.tsx`). -/
structure MappingRow where
  preregVar : String
  resolvedTo : Option String
  topCandidate : Option String
  topScore : ℚ
  candidates : List Candidate
  confidence : Confidence
deriving DecidableEq

/-- The body of the `map` in `getMappingRows`: derive one row from one
variable mapping. `top?.key ? String(top.key) : null` and
`m?.resolvedTo ? ... : null` are the truthiness tests modelled by
`truthyS`. -/
def toMappingRow (m : VariableMapping) : MappingRow :=
  let top := m.candidates.head?
  let topScore : ℚ :=
    match top with
    | some c => c.score
    | none => 0
  { preregVar := m.preregVar
    resolvedTo := truthyS m.resolvedTo
    topCandidate := truthyS (top.map Candidate.key)
    topScore := topScore
    candidates := m.candidates
    confidence :=
      if HIGH_CONFIDENCE ≤ topScore then Confidence.high
      else if MEDIUM_CONFIDENCE ≤ topScore then Confidence.medium
      else Confidence.low }

/-- `getMappingRows` (`src/App.tsx`): one row per variable mapping, rows
with a falsy (empty) `preregVar` filtered out. -/
def getMappingRows (spec : AnalysisSpec) : List MappingRow :=
  (spec.variableMappings.map toMappingRow).filter (fun r => r.preregVar ≠ "")

/-- Lower-case an ASCII string, character by character
(JavaScript `toLowerCase` on the names involved). -/
def lowerStr (s : String) : String :=
  String.mk (s.data.map Char.toLower)

/-- Code-unit lexicographic strict order on character lists: the order the
default JavaScript `Array.prototype.sort()` comparator induces on ASCII
strings. -/
def charsLtb : List Char → List Char → Bool
  | _, [] => false
  | [], _ :: _ => true
  | a :: as, b :: bs =>
    if a.toNat < b.toNat then true
    else if b.toNat < a.toNat then false
    else charsLtb as bs

/-- Insert into a list sorted by `charsLtb`. -/
def insertSorted (x : String) : List String → List String
  | [] => [x]
  | y :: ys => if charsLtb y.data x.data then y :: insertSorted x ys else x :: y :: ys

/-- Sort strings in code-unit lexicographic order (the result of the
source's `.sort()`). -/
def jsSort (l : List String) : List String :=
  l.foldr insertSorted []

/-- The `blocked` denylist of `getAnalyzableColumns` (`src/App.tsx`). -/
def blockedColumns : List String :=
  ["responseid", "recipientlastname", "recipientfirstname", "recipientemail",
   "externalreference", "locationlatitude", "locationlongitude",
   "distributionchannel", "userlanguage", "startdate", "enddate", "status",
   "ipaddress", "progress", "durationinseconds", "finished"]

/-- `getAnalyzableColumns` (`src/App.tsx`): drop falsy names, drop the
case-insensitive denylist, drop names starting (case-insensitively) with
`"qid"`, sort the rest. -/
def getAnalyzableColumns (spec : AnalysisSpec) : List String :=
  jsSort
    (((spec.expectedColumns.filter (fun c => c ≠ "")).filter
        (fun c => ¬ (lowerStr c) ∈ blockedColumns)).filter
      (fun c => ¬ List.isPrefixOf "qid".data (lowerStr c).data))

/-- First-occurrence deduplication with an explicit `seen` accumulator:
the iteration order of `Array.from(new Set(l))`. -/
def dedupAux {α : Type} [DecidableEq α] (seen : List α) : List α → List α
  | [] => []
  | x :: xs => if x ∈ seen then dedupAux seen xs else x :: dedupAux (x :: seen) xs

/-- `Array.from(new Set(l))`: keep the first occurrence of each element. -/
def dedupFirst {α : Type} [DecidableEq α] (l : List α) : List α :=
  dedupAux [] l

/-- `seedManualSelections` (`src/App.tsx`): remap the dv/iv/controls of the
extracted main models through the selections, drop falsy names,
deduplicate. -/
def seedManualSelections (spec : AnalysisSpec) (sel : Selections) :
    List String × List String × List String :=
  let dv := dedupFirst (((spec.mainModels.map (fun m => mapVar sel m.dv)).filter
    (fun s => s ≠ "")))
  let iv := dedupFirst (((spec.mainModels.flatMap (fun m => m.iv.map (mapVar sel))).filter
    (fun s => s ≠ "")))
  let controls := dedupFirst (((spec.mainModels.flatMap
      (fun m => m.controls.map (mapVar sel))).filter (fun s => s ≠ "")))
  (dv, iv, controls)

/-- The merged resolution of one mapping inside `applyMappingsToSpec`:
`selectedMappings[preregVar] || m?.resolvedTo || null`. -/
def mergedResolvedTo (sel : Selections) (m : VariableMapping) : Option String :=
  jsOrS (recGet sel m.preregVar) m.resolvedTo

/-- The `unresolved` set collected by `applyMappingsToSpec`: the
`preregVar`s whose merged resolution is still falsy. -/
def unresolvedAfter (spec : AnalysisSpec) (sel : Selections) : List String :=
  (spec.variableMappings.filter (fun m => mergedResolvedTo sel m = none)).map
    VariableMapping.preregVar

/-- `applyMappingsToSpec` (`src/App.tsx`): merge the selections into every
mapping's `resolvedTo` and keep an `UNRESOLVED_VARIABLE` warning only if
its `details.preregVar` is still unresolved; other warnings pass through. -/
def applyMappingsToSpec (spec : AnalysisSpec) (sel : Selections) : AnalysisSpec :=
  { spec with
    variableMappings := spec.variableMappings.map
      (fun m => { m with resolvedTo := mergedResolvedTo sel m })
    warnings := spec.warnings.filter (fun w =>
      if w.code = "UNRESOLVED_VARIABLE" then
        decide ((w.detailsPreregVar.getD "") ∈ unresolvedAfter spec sel)
      else true) }

/-- Split a character list on a separator character
(JavaScript `String.prototype.split`). -/
def splitCharsOn (sep : Char) : List Char → List (List Char)
  | [] => [[]]
  | c :: cs =>
    match splitCharsOn sep cs with
    | [] => if c = sep then [[], []] else [[c]]
    | r :: rs => if c = sep then [] :: r :: rs else (c :: r) :: rs

/-- `s.split(":")`. -/
def splitColon (s : String) : List String :=
  (splitCharsOn ':' s.data).map String.mk

/-- ASCII whitespace, as removed by `trim` on the names involved. -/
def isJsSpace (c : Char) : Bool :=
  c = ' ' ∨ c = '\t' ∨ c = '\n' ∨ c = '\r'

/-- JavaScript `String.prototype.trim` (ASCII whitespace). -/
def strTrim (s : String) : String :=
  String.mk (((s.data.dropWhile isJsSpace).reverse.dropWhile isJsSpace).reverse)

/-- `extractInteractionVar` (`src/App.tsx`): take the first `"A:B"`
interaction string, split on `:`, trim and drop empty parts, return the
second part, `""` when absent. -/
def extractInteractionVar (interactions : List String) : String :=
  match interactions with
  | [] => ""
  | first :: _ =>
    let parts := ((splitColon first).map strTrim).filter (fun s => s ≠ "")
    parts.getD 1 ""

/-- Does `h` contain `n` as a substring (JavaScript `includes` on the
ASCII family names involved)? -/
def containsSub (h n : String) : Bool :=
  h.data.tails.any (fun t => List.isPrefixOf n.data t)

/-- `mapFamilyToModelType` (`src/App.tsx`). -/
def mapFamilyToModelType (family : String) : ModelType :=
  let lower := lowerStr family
  if containsSub lower "binomial" ∨ containsSub lower "logit" then ModelType.logit
  else if containsSub lower "poisson" then ModelType.poisson
  else ModelType.ols

/-- The body of the `map` in `buildLayoutsFromExtractedModels`: derive one
layout from one extracted model at position `idx`. -/
def layoutFromModel (sel : Selections) (idx : Nat) (m : ExtractedModel) : ModelLayout :=
  let iv := m.iv.map (mapVar sel)
  let interaction := extractInteractionVar m.interactions
  { name := if m.id = "" then "model_" ++ toString (idx + 1) else m.id
    modelType := mapFamilyToModelType m.family
    outcomeVar := mapVar sel m.dv
    treatmentVar :=
      match iv.head? with
      | some h => if h = "" then "treat" else h
      | none => "treat"
    layout := if interaction ≠ "" then "interaction" else "simple"
    interactionVar := interaction
    covariates := joinComma (m.controls.map (mapVar sel))
    idVar := "id"
    timeVar := "time"
    figures := ["coef_plot"]
    includeInMainTable := true }
  where
    /-- `controls.join(", ")`. -/
    joinComma : List String → String
      | [] => ""
      | [x] => x
      | x :: y :: xs => x ++ ", " ++ joinComma (y :: xs)

/-- `buildLayoutsFromExtractedModels` (`src/App.tsx`). -/
def buildLayoutsFromExtractedModels (spec : AnalysisSpec) (sel : Selections) :
    List ModelLayout :=
  (spec.mainModels.enum).map (fun p => layoutFromModel sel p.1 p.2)

/-- `buildLayoutsFromManualSelection` (`src/App.tsx`). -/
def buildLayoutsFromManualSelection (selectedDvs selectedIvs selectedControls : List String)
    (templateChoice : String) : List ModelLayout :=
  if selectedDvs.length = 0 ∨ selectedIvs.length = 0 then []
  else if templateChoice = "factorial_2x2" ∧ 2 ≤ selectedIvs.length then
    (selectedDvs.enum).map (fun p =>
      { name := "factorial_" ++ toString (p.1 + 1)
        modelType := ModelType.ols
        outcomeVar := p.2
        treatmentVar := selectedIvs.getD 0 ""
        layout := "interaction"
        interactionVar := selectedIvs.getD 1 ""
        covariates := layoutFromModel.joinComma selectedControls
        idVar := "id"
        timeVar := "time"
        figures := ["coef_plot"]
        includeInMainTable := true })
  else
    (selectedDvs.enum).map (fun p =>
      { name := "model_" ++ toString (p.1 + 1)
        modelType := ModelType.ols
        outcomeVar := p.2
        treatmentVar := selectedIvs.getD 0 ""
        layout := "simple"
        interactionVar := ""
        covariates := layoutFromModel.joinComma selectedControls
        idVar := "id"
        timeVar := "time"
        figures := ["coef_plot"]
        includeInMainTable := true })

/-- The `modelLayouts` selected inside `specToWizardOptions`: extracted
layouts when `templateChoice === "auto"` and they are non-empty, else the
manual fallback layouts. -/
def chosenModelLayouts (spec : AnalysisSpec) (sel : Selections)
    (selectedDvs selectedIvs selectedControls : List String)
    (templateChoice : String) : List ModelLayout :=
  let extracted := buildLayoutsFromExtractedModels spec sel
  let fallback :=
    buildLayoutsFromManualSelection selectedDvs selectedIvs selectedControls templateChoice
  if templateChoice = "auto" ∧ extracted.length ≠ 0 then extracted else fallback

/-- The options object `specToWizardOptions` returns
(`Partial<AnalysisTemplateOptions>`, the fields the source sets). -/
structure WizardOptions where
  analysisFileName : String
  outcomeVarHint : String
  treatmentVarHint : String
  groupVarHint : String
  descriptives : List String
  plots : List String
  balanceChecks : List String
  models : List ModelType
  diagnostics : List String
  tables : List String
  robustness : List String
  modelLayouts : List ModelLayout
  exploratory : Bool
  exportArtifacts : Bool
deriving DecidableEq

/-- The fallback chain `a || b` where `a` is a possibly-absent string. -/
def jsOrStr (a : Option String) (b : String) : String :=
  match truthyS a with
  | some s => s
  | none => b

/-- `specToWizardOptions` (`src/App.tsx`). -/
def specToWizardOptions (spec : AnalysisSpec) (analysisId : String) (sel : Selections)
    (selectedDvs selectedIvs selectedControls : List String)
    (templateChoice : String) : WizardOptions :=
  let modelLayouts :=
    chosenModelLayouts spec sel selectedDvs selectedIvs selectedControls templateChoice
  let first := modelLayouts.head?
  { analysisFileName := if analysisId = "" then "analysis" else analysisId
    outcomeVarHint :=
      jsOrStr (first.map ModelLayout.outcomeVar) (jsOrStr selectedDvs.head? "y")
    treatmentVarHint :=
      jsOrStr (first.map ModelLayout.treatmentVar) (jsOrStr selectedIvs.head? "treat")
    groupVarHint :=
      jsOrStr (first.map ModelLayout.interactionVar) (jsOrStr (selectedIvs.get? 1) "group")
    descriptives := ["summary_stats", "missingness", "group_summary"]
    plots := ["boxplot", "coef_plot"]
    balanceChecks := ["baseline_table", "randomization_check"]
    models := dedupFirst (modelLayouts.map ModelLayout.modelType)
    diagnostics := []
    tables := ["table1_descriptives", "model_table", "balance_table"]
    robustness := if spec.robustnessCount ≠ 0 then ["alt_controls"] else []
    modelLayouts := modelLayouts
    exploratory := spec.exploratoryCount ≠ 0
    exportArtifacts := true }

/-- The auto-seeding step of one row inside `onCreate` (`src/App.tsx`). -/
def autoSeedStep (acc : Selections) (row : MappingRow) : Selections :=
  if row.confidence = Confidence.high ∧ row.topCandidate.isSome then
    recSet acc row.preregVar (row.topCandidate.getD "")
  else
    match row.resolvedTo with
    | some r => recSet acc row.preregVar r
    | none => acc

/-- The auto-seeding loop of `onCreate` over a list of rows. -/
def autoSeedRows (rows : List MappingRow) : Selections :=
  rows.foldl autoSeedStep []

/-- The `autoSelected` record `onCreate` builds for a freshly generated
spec (`src/App.tsx`). -/
def autoSeedSelections (spec : AnalysisSpec) : Selections :=
  autoSeedRows (getMappingRows spec)

/-- `unresolvedLow` (`src/App.tsx`): rows of low confidence whose current
selection is falsy. -/
def unresolvedLowRows (rows : List MappingRow) (sel : Selections) : List MappingRow :=
  rows.filter (fun r => r.confidence = Confidence.low ∧ selValue sel r.preregVar = none)

/-- The session state touched by `onUseSuggestions`: the current spec and
selections, the status line, the arguments of past `saveAnalysisSpec`
persistence calls, and the process-wide current analysis spec set via
`setAnalysisSpec`. -/
structure SessionState where
  spec : AnalysisSpec
  selectedMappings : Selections
  status : String
  savedSpecs : List AnalysisSpec
  currentAnalysisSpec : Option AnalysisSpec
deriving DecidableEq

/-- `onUseSuggestions` (`src/App.tsx`), modelled for a session that holds a
generated spec and whose persistence call succeeds: with a non-empty
`unresolvedLow` only the status changes; otherwise the merged spec is
persisted, published and reported. -/
def onUseSuggestions (st : SessionState) : SessionState :=
  if (unresolvedLowRows (getMappingRows st.spec) st.selectedMappings).length ≠ 0 then
    { st with status := "Select mappings for low-confidence items before continuing." }
  else
    { st with
      savedSpecs := st.savedSpecs ++ [applyMappingsToSpec st.spec st.selectedMappings]
      currentAnalysisSpec := some (applyMappingsToSpec st.spec st.selectedMappings)
      status := "Saved spec. Opening model builder..." }

end RW


namespace RW

/-! ## Shared helper lemmas -/

theorem medium_lt_high : MEDIUM_CONFIDENCE < HIGH_CONFIDENCE := by decide

theorem zero_lt_medium : (0 : ℚ) < MEDIUM_CONFIDENCE := by decide

theorem confidence_eq (m : VariableMapping) :
    (toMappingRow m).confidence =
      (if HIGH_CONFIDENCE ≤ (toMappingRow m).topScore then Confidence.high
       else if MEDIUM_CONFIDENCE ≤ (toMappingRow m).topScore then Confidence.medium
       else Confidence.low) := rfl

theorem topScore_of_no_candidates (m : VariableMapping) (h : m.candidates = []) :
    (toMappingRow m).topScore = 0 := by
  simp [toMappingRow, h]

theorem topCandidate_of_no_candidates (m : VariableMapping) (h : m.candidates = []) :
    (toMappingRow m).topCandidate = none := by
  simp [toMappingRow, h, truthyS]

/-! ## C1 -/

/-- **C1.** For every variable mapping, the derived mapping row's confidence
is a pure function of the top candidate score: `high` exactly when
`topScore ≥ 0.90`, `medium` exactly when `0.75 ≤ topScore < 0.90`, and `low`
exactly when `topScore < 0.75` — so the boundary values `0.90` and `0.75`
classify into the higher tier — and a mapping with an empty candidates list
has `topScore = 0`, no top candidate, and confidence `low`. -/
theorem C1_confidence_classifier (m : VariableMapping) :
    ((toMappingRow m).confidence = Confidence.high ↔
      HIGH_CONFIDENCE ≤ (toMappingRow m).topScore) ∧
    ((toMappingRow m).confidence = Confidence.medium ↔
      MEDIUM_CONFIDENCE ≤ (toMappingRow m).topScore ∧
        (toMappingRow m).topScore < HIGH_CONFIDENCE) ∧
    ((toMappingRow m).confidence = Confidence.low ↔
      (toMappingRow m).topScore < MEDIUM_CONFIDENCE) ∧
    (m.candidates = [] →
      (toMappingRow m).topScore = 0 ∧ (toMappingRow m).topCandidate = none ∧
        (toMappingRow m).confidence = Confidence.low) := by
  rw [confidence_eq]
  split_ifs with h1 h2
  · refine ⟨by simp [h1], ?_, ?_, ?_⟩
    · constructor
      · intro h; simp at h
      · rintro ⟨-, hlt⟩; exact absurd h1 (not_le.mpr hlt)
    · constructor
      · intro h; simp at h
      · intro hlt; exact absurd h1 (not_le.mpr (lt_trans hlt medium_lt_high))
    · intro hE
      rw [topScore_of_no_candidates m hE] at h1
      exact absurd h1 (by decide)
  · refine ⟨by simp [h1], by simp [h2, not_le.mp h1], by simp [not_lt.mpr h2], ?_⟩
    · intro hE
      rw [topScore_of_no_candidates m hE] at h2
      exact absurd h2 (by decide)
  · exact ⟨by simp [h1], by simp [h2], by simp [not_le.mp h2],
      fun hE => ⟨topScore_of_no_candidates m hE, topCandidate_of_no_candidates m hE, rfl⟩⟩

/-- Witness for C1: the classifier applied to a concrete mapping with no
candidates yields score `0`, no top candidate and confidence `low`. -/
theorem C1_confidence_classifier_witness :
    (toMappingRow ⟨"anx", none, []⟩).topScore = 0 ∧
    (toMappingRow ⟨"anx", none, []⟩).topCandidate = none ∧
    (toMappingRow ⟨"anx", none, []⟩).confidence = Confidence.low :=
  (C1_confidence_classifier ⟨"anx", none, []⟩).2.2.2 rfl

end RW

namespace RW

/-! ## C2 -/

theorem recGet_recSet_self (acc : Selections) (k v : String) :
    recGet (recSet acc k v) k = some v := by
  simp [recGet, recSet]

theorem recGet_recSet_ne (acc : Selections) (k v q : String) (h : k ≠ q) :
    recGet (recSet acc k v) q = recGet acc q := by
  simp [recGet, recSet, h]

/-- A fold of the auto-seeding step over rows that never mention `p` leaves
the record at `p` unchanged. -/
theorem autoSeed_skip (rows : List MappingRow) (acc : Selections) (p : String)
    (h : ∀ r ∈ rows, r.preregVar ≠ p) :
    recGet (rows.foldl autoSeedStep acc) p = recGet acc p := by
  induction rows generalizing acc with
  | nil => rfl
  | cons x xs ih =>
    rw [List.foldl_cons, ih _ (fun r hr => h r (List.mem_cons_of_mem _ hr))]
    have hx : x.preregVar ≠ p := h x (List.mem_cons_self _ _)
    unfold autoSeedStep
    split_ifs with h1
    · exact recGet_recSet_ne _ _ _ _ hx
    · cases hr : x.resolvedTo with
      | some r => simp only [hr, recGet_recSet_ne _ _ _ _ hx]
      | none => simp only [hr]

/-- Lookup after the auto-seeding fold, for a row of a duplicate-free row
list, starting from a record that does not yet bind the row's variable. -/
theorem autoSeed_mem (rows : List MappingRow) (acc : Selections) (r : MappingRow)
    (hmem : r ∈ rows) (hnd : (rows.map MappingRow.preregVar).Nodup)
    (hacc : recGet acc r.preregVar = none) :
    recGet (rows.foldl autoSeedStep acc) r.preregVar =
      (if r.confidence = Confidence.high ∧ r.topCandidate.isSome then r.topCandidate
       else if r.resolvedTo.isSome then r.resolvedTo
       else none) := by
  induction rows generalizing acc with
  | nil => cases hmem
  | cons x xs ih =>
    rw [List.foldl_cons]
    rw [List.map_cons, List.nodup_cons] at hnd
    rcases List.mem_cons.mp hmem with heq | hmem'
    · subst heq
      have hnotin : ∀ s ∈ xs, s.preregVar ≠ r.preregVar := by
        intro s hs hps
        exact hnd.1 (hps ▸ List.mem_map_of_mem MappingRow.preregVar hs)
      rw [autoSeed_skip xs _ _ hnotin]
      unfold autoSeedStep
      split_ifs with h1 h2
      · obtain ⟨v, hv⟩ := Option.isSome_iff_exists.mp h1.2
        simp only [hv, Option.getD_some, recGet_recSet_self]
      · obtain ⟨v, hv⟩ := Option.isSome_iff_exists.mp h2
        simp only [hv, recGet_recSet_self]
      · cases hr : r.resolvedTo with
        | some v => rw [hr] at h2; simp at h2
        | none => simp only [hr, hacc]
    · refine ih _ hmem' hnd.2 ?_
      have hxr : x.preregVar ≠ r.preregVar := by
        intro hps
        exact hnd.1 (hps ▸ List.mem_map_of_mem MappingRow.preregVar hmem')
      unfold autoSeedStep
      split_ifs
      · rw [recGet_recSet_ne _ _ _ _ hxr]; exact hacc
      · cases hrx : x.resolvedTo with
        | some v => rw [recGet_recSet_ne _ _ _ _ hxr]; exact hacc
        | none => exact hacc

/-- **C2.** Auto-seeding from a freshly generated spec produces exactly this
selection map: a row of `high` confidence with an existing top candidate is
selected to that top candidate; otherwise a row whose mapping already carries
a non-null `resolvedTo` keeps that value; otherwise its variable has no
entry, and variables outside the rows have no entry either. Seeding is a
pure function of the spec, so seeding twice with an identical input spec
yields identical selections. -/
theorem C2_auto_seed (spec : AnalysisSpec)
    (hnd : ((getMappingRows spec).map MappingRow.preregVar).Nodup) :
    (∀ r ∈ getMappingRows spec,
      recGet (autoSeedSelections spec) r.preregVar =
        (if r.confidence = Confidence.high ∧ r.topCandidate.isSome then r.topCandidate
         else if r.resolvedTo.isSome then r.resolvedTo
         else none)) ∧
    (∀ p, p ∉ (getMappingRows spec).map MappingRow.preregVar →
      recGet (autoSeedSelections spec) p = none) ∧
    autoSeedSelections spec = autoSeedSelections spec := by
  refine ⟨?_, ?_, rfl⟩
  · intro r hr
    exact autoSeed_mem (getMappingRows spec) [] r hr hnd rfl
  · intro p hp
    have h : ∀ r ∈ getMappingRows spec, r.preregVar ≠ p := by
      intro r hr hrp
      exact hp (hrp ▸ List.mem_map_of_mem MappingRow.preregVar hr)
    exact autoSeed_skip (getMappingRows spec) [] p h

/-- A small concrete spec: one high-confidence mapping, one low-confidence
mapping that already carries a `resolvedTo`, one unresolved mapping with no
candidates. -/
def c2Spec : AnalysisSpec :=
  { variableMappings :=
      [⟨"anx", none, [⟨"Q5_anxiety", mkRat 95 100⟩]⟩,
       ⟨"dep", some "Q7_dep", [⟨"Q7_d", mkRat 1 2⟩]⟩,
       ⟨"stress", none, []⟩]
    mainModels := []
    robustnessCount := 0
    exploratoryCount := 0
    expectedColumns := []
    warnings := [] }

/-- Witness for C2 on `c2Spec`: the high-confidence row is seeded to its top
candidate, the pre-resolved row keeps its `resolvedTo`, the unresolved row
and unknown variables have no entry. -/
theorem C2_auto_seed_witness :
    recGet (autoSeedSelections c2Spec) "anx" = some "Q5_anxiety" ∧
    recGet (autoSeedSelections c2Spec) "dep" = some "Q7_dep" ∧
    recGet (autoSeedSelections c2Spec) "stress" = none ∧
    recGet (autoSeedSelections c2Spec) "other" = none := by
  have h := C2_auto_seed c2Spec (by decide)
  refine ⟨?_, ?_, ?_, ?_⟩
  · exact (h.1 (toMappingRow ⟨"anx", none, [⟨"Q5_anxiety", mkRat 95 100⟩]⟩)
      (by decide)).trans (by decide)
  · exact (h.1 (toMappingRow ⟨"dep", some "Q7_dep", [⟨"Q7_d", mkRat 1 2⟩]⟩)
      (by decide)).trans (by decide)
  · exact (h.1 (toMappingRow ⟨"stress", none, []⟩) (by decide)).trans (by decide)
  · exact h.2.1 "other" (by decide)

end RW

namespace RW

/-! ## C3 -/

/-- **C3.** Whenever the set of rows with confidence `low` and no current
selection is non-empty, the save/continue step is rejected: the persistence
collaborator is never invoked, the spec, the selections and the published
current spec are left unchanged, and only the status message is set;
conversely, whenever a persistence call happens, the set was empty and the
call received exactly `applyMappingsToSpec` of the current spec and
selections. -/
theorem C3_low_confidence_gate (st : SessionState) :
    (unresolvedLowRows (getMappingRows st.spec) st.selectedMappings ≠ [] →
      (onUseSuggestions st).savedSpecs = st.savedSpecs ∧
      (onUseSuggestions st).spec = st.spec ∧
      (onUseSuggestions st).selectedMappings = st.selectedMappings ∧
      (onUseSuggestions st).currentAnalysisSpec = st.currentAnalysisSpec ∧
      (onUseSuggestions st).status =
        "Select mappings for low-confidence items before continuing.") ∧
    ((onUseSuggestions st).savedSpecs ≠ st.savedSpecs →
      unresolvedLowRows (getMappingRows st.spec) st.selectedMappings = [] ∧
      (onUseSuggestions st).savedSpecs =
        st.savedSpecs ++ [applyMappingsToSpec st.spec st.selectedMappings]) := by
  unfold onUseSuggestions
  split_ifs with h
  · exact ⟨fun _ => ⟨rfl, rfl, rfl, rfl, rfl⟩, fun hc => absurd rfl hc⟩
  · have hempty : unresolvedLowRows (getMappingRows st.spec) st.selectedMappings = [] :=
      List.length_eq_zero.mp (not_ne_iff.mp h)
    exact ⟨fun hne => absurd hempty hne, fun _ => ⟨hempty, rfl⟩⟩

/-- A session over `c2Spec` with no selections made: two rows are of low
confidence and unselected, so the gate must reject the save. -/
def c3State : SessionState :=
  { spec := c2Spec
    selectedMappings := []
    status := ""
    savedSpecs := []
    currentAnalysisSpec := none }

/-- Witness for C3 on `c3State`: the persistence list stays empty, the spec
and selections are untouched, and the status reports the gating message. -/
theorem C3_low_confidence_gate_witness :
    (onUseSuggestions c3State).savedSpecs = [] ∧
    (onUseSuggestions c3State).spec = c2Spec ∧
    (onUseSuggestions c3State).selectedMappings = [] ∧
    (onUseSuggestions c3State).status =
      "Select mappings for low-confidence items before continuing." := by
  have h := (C3_low_confidence_gate c3State).1 (by decide)
  exact ⟨h.1, h.2.1, h.2.2.1, h.2.2.2.2⟩

end RW

namespace RW

/-! ## C4 -/

theorem mem_unresolvedAfter (spec : AnalysisSpec) (sel : Selections) (pv : String) :
    pv ∈ unresolvedAfter spec sel ↔
      ∃ m ∈ spec.variableMappings, mergedResolvedTo sel m = none ∧ m.preregVar = pv := by
  unfold unresolvedAfter
  simp only [List.mem_map, List.mem_filter, decide_eq_true_eq]
  constructor
  · rintro ⟨m, ⟨hm, hmerge⟩, hpv⟩
    exact ⟨m, hm, hmerge, hpv⟩
  · rintro ⟨m, hm, hmerge, hpv⟩
    exact ⟨m, ⟨hm, hmerge⟩, hpv⟩

theorem mem_warnings_applyMappings (spec : AnalysisSpec) (sel : Selections)
    (w : SpecWarning) :
    w ∈ (applyMappingsToSpec spec sel).warnings ↔
      w ∈ spec.warnings ∧
        (w.code = "UNRESOLVED_VARIABLE" →
          (w.detailsPreregVar.getD "") ∈ unresolvedAfter spec sel) := by
  have hfil : (applyMappingsToSpec spec sel).warnings =
      spec.warnings.filter (fun w =>
        if w.code = "UNRESOLVED_VARIABLE" then
          decide ((w.detailsPreregVar.getD "") ∈ unresolvedAfter spec sel)
        else true) := rfl
  rw [hfil, List.mem_filter]
  constructor
  · rintro ⟨hw, hp⟩
    refine ⟨hw, fun hcode => ?_⟩
    rw [if_pos hcode] at hp
    exact of_decide_eq_true hp
  · rintro ⟨hw, hp⟩
    refine ⟨hw, ?_⟩
    by_cases hcode : w.code = "UNRESOLVED_VARIABLE"
    · rw [if_pos hcode]
      exact decide_eq_true (hp hcode)
    · rw [if_neg hcode]

/-- **C4.** After the apply-and-prune mutation, a warning whose code is not
`UNRESOLVED_VARIABLE` passes through unchanged; an `UNRESOLVED_VARIABLE`
warning about a variable `X` is dropped exactly when every mapping for `X`
has a non-null resolution after the merge (vacuously, when `X` does not
appear in the spec's `variableMappings` at all); and the result never
contains an `UNRESOLVED_VARIABLE` warning referencing a variable whose
mapping is resolved in the result. -/
theorem C4_warning_prune (spec : AnalysisSpec) (sel : Selections)
    (hnd : (spec.variableMappings.map VariableMapping.preregVar).Nodup) :
    (∀ w ∈ spec.warnings, w.code ≠ "UNRESOLVED_VARIABLE" →
      w ∈ (applyMappingsToSpec spec sel).warnings) ∧
    (∀ w ∈ spec.warnings, w.code = "UNRESOLVED_VARIABLE" →
      (w ∉ (applyMappingsToSpec spec sel).warnings ↔
        ∀ m ∈ spec.variableMappings,
          m.preregVar = w.detailsPreregVar.getD "" → mergedResolvedTo sel m ≠ none)) ∧
    (∀ w ∈ (applyMappingsToSpec spec sel).warnings, w.code = "UNRESOLVED_VARIABLE" →
      ∀ m' ∈ (applyMappingsToSpec spec sel).variableMappings,
        m'.preregVar = w.detailsPreregVar.getD "" → m'.resolvedTo = none) := by
  refine ⟨?_, ?_, ?_⟩
  · intro w hw hcode
    exact (mem_warnings_applyMappings spec sel w).mpr ⟨hw, fun h => absurd h hcode⟩
  · intro w hw hcode
    rw [mem_warnings_applyMappings spec sel w]
    constructor
    · intro hnot m hm hpv hmerge
      exact hnot ⟨hw, fun _ => (mem_unresolvedAfter spec sel _).mpr ⟨m, hm, hmerge, hpv⟩⟩
    · rintro hall ⟨-, hunres⟩
      obtain ⟨m, hm, hmerge, hpv⟩ := (mem_unresolvedAfter spec sel _).mp (hunres hcode)
      exact hall m hm hpv hmerge
  · intro w hw hcode m' hm' hpv
    obtain ⟨-, hunres⟩ := (mem_warnings_applyMappings spec sel w).mp hw
    obtain ⟨m0, hm0, hmerge0, hpv0⟩ := (mem_unresolvedAfter spec sel _).mp (hunres hcode)
    have hmaps : (applyMappingsToSpec spec sel).variableMappings =
        spec.variableMappings.map (fun m => { m with resolvedTo := mergedResolvedTo sel m }) := rfl
    rw [hmaps, List.mem_map] at hm'
    obtain ⟨m1, hm1, hm1eq⟩ := hm'
    have hpv1 : m1.preregVar = m0.preregVar := by
      have : m'.preregVar = m1.preregVar := by rw [← hm1eq]
      rw [this] at hpv
      rw [hpv, hpv0]
    have hm10 : m1 = m0 :=
      List.inj_on_of_nodup_map hnd hm1 hm0 hpv1
    rw [← hm1eq]
    show mergedResolvedTo sel m1 = none
    rw [hm10]
    exact hmerge0

/-- A spec with two unresolved variables, two `UNRESOLVED_VARIABLE` warnings
and one unrelated warning. -/
def c4Spec : AnalysisSpec :=
  { variableMappings := [⟨"anx", none, []⟩, ⟨"dep", none, []⟩]
    mainModels := []
    robustnessCount := 0
    exploratoryCount := 0
    expectedColumns := []
    warnings := [⟨"UNRESOLVED_VARIABLE", "anx unresolved", some "anx"⟩,
                 ⟨"UNRESOLVED_VARIABLE", "dep unresolved", some "dep"⟩,
                 ⟨"LOW_CONFIDENCE", "misc", none⟩] }

/-- Witness for C4: selecting only `anx` drops exactly the `anx` warning,
keeps the `dep` warning, and passes the unrelated warning through. -/
theorem C4_warning_prune_witness :
    (⟨"UNRESOLVED_VARIABLE", "anx unresolved", some "anx"⟩ : SpecWarning) ∉
      (applyMappingsToSpec c4Spec [("anx", "Q5")]).warnings ∧
    (⟨"LOW_CONFIDENCE", "misc", none⟩ : SpecWarning) ∈
      (applyMappingsToSpec c4Spec [("anx", "Q5")]).warnings := by
  have h := C4_warning_prune c4Spec [("anx", "Q5")] (by decide)
  constructor
  · exact (h.2.1 _ (by decide) rfl).mpr (by decide)
  · exact h.1 _ (by decide) (by decide)

end RW

namespace RW

/-! ## C5 -/

/-- **C5.** `applyMappingsToSpec` is a pure function of its two arguments
(the input spec is untouched by construction in this functional embedding):
every output mapping keeps its `preregVar` and `candidates`, and its
`resolvedTo` equals the selection for its `preregVar` when a (non-empty)
selection is present, else the mapping's own prior (non-empty) `resolvedTo`,
else `null`; in particular a truthy input `resolvedTo` is never erased —
the merge is `none` for no such mapping — and whenever the merge changed the
stored value it did so because a selection overrode it; all spec fields
other than `variableMappings` and `warnings` are returned unchanged. -/
theorem C5_apply_mappings (spec : AnalysisSpec) (sel : Selections) :
    ((applyMappingsToSpec spec sel).variableMappings =
      spec.variableMappings.map (fun m =>
        { m with resolvedTo :=
            match selValue sel m.preregVar with
            | some k => some k
            | none =>
              match truthyS m.resolvedTo with
              | some r => some r
              | none => none })) ∧
    (∀ m ∈ spec.variableMappings, truthyS m.resolvedTo ≠ none →
      mergedResolvedTo sel m ≠ none ∧
      (mergedResolvedTo sel m ≠ truthyS m.resolvedTo →
        mergedResolvedTo sel m = selValue sel m.preregVar)) ∧
    (applyMappingsToSpec spec sel).mainModels = spec.mainModels ∧
    (applyMappingsToSpec spec sel).robustnessCount = spec.robustnessCount ∧
    (applyMappingsToSpec spec sel).exploratoryCount = spec.exploratoryCount ∧
    (applyMappingsToSpec spec sel).expectedColumns = spec.expectedColumns := by
  have hmerge : ∀ m : VariableMapping,
      mergedResolvedTo sel m =
        (match selValue sel m.preregVar with
         | some k => some k
         | none =>
           match truthyS m.resolvedTo with
           | some r => some r
           | none => none) := by
    intro m
    unfold mergedResolvedTo jsOrS selValue
    cases truthyS (recGet sel m.preregVar) with
    | some k => rfl
    | none =>
      cases truthyS m.resolvedTo with
      | some r => rfl
      | none => rfl
  refine ⟨?_, ?_, rfl, rfl, rfl, rfl⟩
  · have : (applyMappingsToSpec spec sel).variableMappings =
        spec.variableMappings.map (fun m => { m with resolvedTo := mergedResolvedTo sel m }) :=
      rfl
    rw [this]
    exact List.map_congr_left (fun m _ => by rw [hmerge m])
  · intro m _ htruthy
    rw [hmerge m]
    cases hsel : selValue sel m.preregVar with
    | some k => exact ⟨by simp, fun _ => rfl⟩
    | none =>
      cases hres : truthyS m.resolvedTo with
      | some r => exact ⟨by simp, fun hne => absurd rfl hne⟩
      | none => exact absurd hres htruthy

/-- A one-mapping spec whose mapping already carries a `resolvedTo`. -/
def c5Spec : AnalysisSpec :=
  { variableMappings := [⟨"dep", some "Q7", []⟩]
    mainModels := []
    robustnessCount := 0
    exploratoryCount := 0
    expectedColumns := []
    warnings := [] }

/-- Witness for C5: with a selection overriding the prior `resolvedTo`, the
merge is non-null and equals the selection; the mapped list is as stated. -/
theorem C5_apply_mappings_witness :
    mergedResolvedTo [("dep", "Q9")] ⟨"dep", some "Q7", []⟩ ≠ none ∧
    (applyMappingsToSpec c5Spec [("dep", "Q9")]).variableMappings =
      [⟨"dep", some "Q9", []⟩] := by
  have h := C5_apply_mappings c5Spec [("dep", "Q9")]
  constructor
  · exact (h.2.1 ⟨"dep", some "Q7", []⟩ (by decide) (by decide)).1
  · rw [h.1]
    decide

end RW

namespace RW

/-! ## C6 -/

/-- The extracted model of the spec's worked example:
`{dv:"score", iv:["cond"], controls:["age"], interactions:["cond:group"]}`. -/
def c6Spec : AnalysisSpec :=
  { variableMappings := []
    mainModels := [⟨"", "gaussian", "score", ["cond"], ["age"], ["cond:group"]⟩]
    robustnessCount := 0
    exploratoryCount := 0
    expectedColumns := []
    warnings := [] }

/-- The example's resolution selections `{cond:"Q_cond", group:"Q_group"}`. -/
def c6Sel : Selections := [("cond", "Q_cond"), ("group", "Q_group")]

/-- **C6 (counterexample).** The claim asserts the derived layout has
`interactionVar = "Q_group"`; the code takes the second component of the
first interaction string verbatim and does not remap it through the
selections, so the derived layout has `interactionVar = "group"`. -/
theorem C6_counterexample :
    (buildLayoutsFromExtractedModels c6Spec c6Sel).map ModelLayout.interactionVar
      = ["group"] ∧
    (buildLayoutsFromExtractedModels c6Spec c6Sel).map ModelLayout.interactionVar
      ≠ ["Q_group"] := by
  decide

/-- **C6 (amended).** Deriving a layout from the example extracted model
under the example selections yields `outcomeVar "score"`,
`treatmentVar "Q_cond"`, layout `"interaction"`, covariates `"age"` — and
`interactionVar "group"`: the second component of the interaction string,
not remapped through the selections. -/
theorem C6_interaction_layout :
    buildLayoutsFromExtractedModels c6Spec c6Sel =
      [{ name := "model_1", modelType := ModelType.ols, outcomeVar := "score",
         treatmentVar := "Q_cond", layout := "interaction", interactionVar := "group",
         covariates := "age", idVar := "id", timeVar := "time",
         figures := ["coef_plot"], includeInMainTable := true }] := by
  decide

/-! ## C7 -/

/-- A spec whose survey inventory is the example column list
`["ResponseId","Q1_1","status","Finished","age"]`. -/
def c7Spec : AnalysisSpec :=
  { variableMappings := []
    mainModels := []
    robustnessCount := 0
    exploratoryCount := 0
    expectedColumns := ["ResponseId", "Q1_1", "status", "Finished", "age"]
    warnings := [] }

/-- **C7 (counterexample).** The claim asserts the filtered inventory is
`["age","Q1_1"]`; the code's default `sort()` compares UTF-16 code units,
where `"Q"` (0x51) precedes `"a"` (0x61), so the result is
`["Q1_1","age"]`. -/
theorem C7_counterexample :
    getAnalyzableColumns c7Spec ≠ ["age", "Q1_1"] := by
  decide

/-- **C7 (amended).** The inventory filter drops `"ResponseId"`, `"status"`
and `"Finished"` case-insensitively, keeps `"Q1_1"` (which does not begin
with the reserved `"qid"` prefix) and `"age"`, and sorts the remainder in
code-unit lexicographic order: the result is `["Q1_1","age"]`. -/
theorem C7_inventory_filter :
    getAnalyzableColumns c7Spec = ["Q1_1", "age"] ∧
    "ResponseId" ∉ getAnalyzableColumns c7Spec ∧
    "status" ∉ getAnalyzableColumns c7Spec ∧
    "Finished" ∉ getAnalyzableColumns c7Spec := by
  decide

/-! ## C8 -/

/-- **C8.** Manual-selection derivation yields an empty layout list whenever
no DV or no IV is selected; for `dv=["y1","y2"]`, `iv=["x1","x2"]`,
`controls=["c1"]` and `templateChoice="factorial_2x2"` it yields exactly two
`ols`/`interaction` layouts with treatment `"x1"`, interaction `"x2"`,
covariates `"c1"`, named sequentially `factorial_1`, `factorial_2`. -/
theorem C8_manual_layouts (selectedDvs selectedIvs selectedControls : List String)
    (templateChoice : String) :
    (selectedDvs = [] ∨ selectedIvs = [] →
      buildLayoutsFromManualSelection selectedDvs selectedIvs selectedControls
        templateChoice = []) ∧
    buildLayoutsFromManualSelection ["y1", "y2"] ["x1", "x2"] ["c1"] "factorial_2x2" =
      [{ name := "factorial_1", modelType := ModelType.ols, outcomeVar := "y1",
         treatmentVar := "x1", layout := "interaction", interactionVar := "x2",
         covariates := "c1", idVar := "id", timeVar := "time",
         figures := ["coef_plot"], includeInMainTable := true },
       { name := "factorial_2", modelType := ModelType.ols, outcomeVar := "y2",
         treatmentVar := "x1", layout := "interaction", interactionVar := "x2",
         covariates := "c1", idVar := "id", timeVar := "time",
         figures := ["coef_plot"], includeInMainTable := true }] := by
  constructor
  · intro h
    unfold buildLayoutsFromManualSelection
    rcases h with h | h <;> simp [h]
  · decide

/-- Witness for C8: with no DV selected the derivation yields no layouts. -/
theorem C8_manual_layouts_witness :
    buildLayoutsFromManualSelection [] ["x1"] [] "simple_ols" = [] :=
  (C8_manual_layouts [] ["x1"] [] "simple_ols").1 (Or.inl rfl)

end RW

namespace RW

/-! ## C9 -/

theorem mem_dedupAux {α : Type} [DecidableEq α] (seen l : List α) (a : α) :
    a ∈ dedupAux seen l ↔ a ∈ l ∧ a ∉ seen := by
  induction l generalizing seen with
  | nil => simp [dedupAux]
  | cons x xs ih =>
    unfold dedupAux
    split_ifs with hx
    · rw [ih]
      constructor
      · rintro ⟨h1, h2⟩
        exact ⟨List.mem_cons_of_mem _ h1, h2⟩
      · rintro ⟨h1, h2⟩
        rcases List.mem_cons.mp h1 with heq | h1'
        · exact absurd (heq ▸ hx) h2
        · exact ⟨h1', h2⟩
    · rw [List.mem_cons, ih]
      constructor
      · rintro (heq | ⟨h1, h2⟩)
        · exact ⟨heq ▸ List.mem_cons_self x xs, heq ▸ hx⟩
        · exact ⟨List.mem_cons_of_mem _ h1, fun hs => h2 (List.mem_cons_of_mem _ hs)⟩
      · rintro ⟨h1, h2⟩
        by_cases hax : a = x
        · exact Or.inl hax
        · rcases List.mem_cons.mp h1 with heq | h1'
          · exact absurd heq hax
          · refine Or.inr ⟨h1', fun hs => ?_⟩
            rcases List.mem_cons.mp hs with heq | hs'
            · exact hax heq
            · exact h2 hs'

theorem nodup_dedupAux {α : Type} [DecidableEq α] (seen l : List α) :
    (dedupAux seen l).Nodup := by
  induction l generalizing seen with
  | nil => simp [dedupAux]
  | cons x xs ih =>
    unfold dedupAux
    split_ifs with hx
    · exact ih seen
    · rw [List.nodup_cons]
      exact ⟨fun hmem => ((mem_dedupAux _ _ _).mp hmem).2 (List.mem_cons_self _ _),
        ih (x :: seen)⟩

/-- **C9.** For every spec and every combination of selections, manual
choices and template choice, the options projector's output has
`exportArtifacts = true`, `robustness = ["alt_controls"]` exactly when the
spec declares at least one robustness-model entry and `[]` otherwise,
`exploratory = true` exactly when the spec declares at least one
exploratory-model entry, and `models` is a duplicate-free list holding
exactly the model types occurring across the derived layouts. -/
theorem C9_options_projector (spec : AnalysisSpec) (analysisId : String)
    (sel : Selections) (selectedDvs selectedIvs selectedControls : List String)
    (templateChoice : String) :
    (specToWizardOptions spec analysisId sel selectedDvs selectedIvs selectedControls
        templateChoice).exportArtifacts = true ∧
    ((specToWizardOptions spec analysisId sel selectedDvs selectedIvs selectedControls
        templateChoice).robustness =
      if spec.robustnessCount ≠ 0 then ["alt_controls"] else []) ∧
    ((specToWizardOptions spec analysisId sel selectedDvs selectedIvs selectedControls
        templateChoice).exploratory = true ↔ spec.exploratoryCount ≠ 0) ∧
    (specToWizardOptions spec analysisId sel selectedDvs selectedIvs selectedControls
        templateChoice).models.Nodup ∧
    (∀ t : ModelType,
      t ∈ (specToWizardOptions spec analysisId sel selectedDvs selectedIvs
          selectedControls templateChoice).models ↔
        t ∈ (chosenModelLayouts spec sel selectedDvs selectedIvs selectedControls
          templateChoice).map ModelLayout.modelType) := by
  refine ⟨rfl, rfl, ?_, ?_, ?_⟩
  · show decide (spec.exploratoryCount ≠ 0) = true ↔ spec.exploratoryCount ≠ 0
    rw [decide_eq_true_eq]
  · exact nodup_dedupAux _ _
  · intro t
    show t ∈ dedupAux [] _ ↔ _
    rw [mem_dedupAux]
    simp

/-- Witness for C9 on a concrete projector call: export flag set, no
robustness section, exploratory enabled, and a deduplicated model list. -/
theorem C9_options_projector_witness :
    (specToWizardOptions
        { variableMappings := [], mainModels := [], robustnessCount := 0,
          exploratoryCount := 2, expectedColumns := [], warnings := [] }
        "a1" [] ["y1"] ["x1"] [] "simple_ols").exportArtifacts = true ∧
    (specToWizardOptions
        { variableMappings := [], mainModels := [], robustnessCount := 0,
          exploratoryCount := 2, expectedColumns := [], warnings := [] }
        "a1" [] ["y1"] ["x1"] [] "simple_ols").exploratory = true := by
  have h := C9_options_projector
    { variableMappings := [], mainModels := [], robustnessCount := 0,
      exploratoryCount := 2, expectedColumns := [], warnings := [] }
    "a1" [] ["y1"] ["x1"] [] "simple_ols"
  exact ⟨h.1, h.2.2.1.mpr (by decide)⟩

end RW

namespace RW

/-! ## C10 -/

/-- The selections record with every binding of key `p` removed. -/
def eraseKey (sel : Selections) (p : String) : Selections :=
  sel.filter (fun q => q.1 ≠ p)

theorem recGet_cons (k v : String) (rest : Selections) (q : String) :
    recGet ((k, v) :: rest) q = if k = q then some v else recGet rest q := rfl

theorem recGet_eraseKey (sel : Selections) (p q : String) :
    recGet (eraseKey sel p) q = if q = p then none else recGet sel q := by
  induction sel with
  | nil =>
    show recGet [] q = if q = p then none else recGet [] q
    split_ifs <;> rfl
  | cons kv rest ih =>
    obtain ⟨k, v⟩ := kv
    unfold eraseKey at ih ⊢
    rw [List.filter_cons]
    by_cases hkp : k = p
    · rw [if_neg (by simp [hkp]), ih]
      by_cases hqp : q = p
      · simp [hqp]
      · rw [if_neg hqp, if_neg hqp, recGet_cons,
          if_neg (fun hkq : k = q => hqp (hkq ▸ hkp))]
    · rw [if_pos (by simp [hkp]), recGet_cons]
      by_cases hkq : k = q
      · have hqp : ¬ q = p := fun hq => hkp (hkq.trans hq)
        rw [if_pos hkq, if_neg hqp, recGet_cons, if_pos hkq]
      · rw [if_neg hkq, ih]
        by_cases hqp : q = p
        · simp [hqp]
        · rw [if_neg hqp, if_neg hqp, recGet_cons, if_neg hkq]

theorem selValue_eraseKey (sel : Selections) (p : String)
    (h : recGet sel p = some "") :
    selValue (eraseKey sel p) = selValue sel := by
  funext q
  unfold selValue
  rw [recGet_eraseKey]
  split_ifs with hq
  · rw [hq, h]
    rfl
  · rfl

theorem mapVar_eraseKey (sel : Selections) (p : String)
    (h : recGet sel p = some "") :
    mapVar (eraseKey sel p) = mapVar sel := by
  funext v
  unfold mapVar
  rw [selValue_eraseKey sel p h]

theorem mergedResolvedTo_eraseKey (sel : Selections) (p : String)
    (h : recGet sel p = some "") :
    mergedResolvedTo (eraseKey sel p) = mergedResolvedTo sel := by
  funext m
  unfold mergedResolvedTo jsOrS
  have hv := congrFun (selValue_eraseKey sel p h) m.preregVar
  unfold selValue at hv
  rw [hv]

theorem layoutFromModel_eraseKey (sel : Selections) (p : String)
    (h : recGet sel p = some "") :
    layoutFromModel (eraseKey sel p) = layoutFromModel sel := by
  funext idx m
  unfold layoutFromModel
  rw [mapVar_eraseKey sel p h]

/-- **C10.** For every prereg variable `p`, a selections record that maps
`p` to the empty string is observationally equivalent to one in which `p`
is absent: `applyMappingsToSpec` produces the same spec, layout derivation
from extracted models and manual-selection seeding produce the same output,
`p` itself remaps to itself, the low-confidence gating set is unchanged,
and a low-confidence row whose variable is selected as the empty string
still belongs to the gating set, so it continues to block the save. -/
theorem C10_empty_string_selection (sel : Selections) (p : String)
    (h : recGet sel p = some "") :
    (∀ spec, applyMappingsToSpec spec sel = applyMappingsToSpec spec (eraseKey sel p)) ∧
    (∀ spec, buildLayoutsFromExtractedModels spec sel =
      buildLayoutsFromExtractedModels spec (eraseKey sel p)) ∧
    (∀ spec, seedManualSelections spec sel = seedManualSelections spec (eraseKey sel p)) ∧
    mapVar sel p = p ∧
    (∀ rows, unresolvedLowRows rows sel = unresolvedLowRows rows (eraseKey sel p)) ∧
    (∀ rows, ∀ r ∈ rows, r.confidence = Confidence.low → r.preregVar = p →
      r ∈ unresolvedLowRows rows sel) := by
  have hM := mergedResolvedTo_eraseKey sel p h
  have hV := selValue_eraseKey sel p h
  have hMap := mapVar_eraseKey sel p h
  have hU : ∀ spec, unresolvedAfter spec (eraseKey sel p) = unresolvedAfter spec sel := by
    intro spec
    unfold unresolvedAfter
    rw [hM]
  refine ⟨?_, ?_, ?_, ?_, ?_, ?_⟩
  · intro spec
    unfold applyMappingsToSpec
    rw [hM, hU]
  · intro spec
    unfold buildLayoutsFromExtractedModels
    rw [layoutFromModel_eraseKey sel p h]
  · intro spec
    unfold seedManualSelections
    rw [hMap]
  · unfold mapVar selValue
    rw [h]
    rfl
  · intro rows
    unfold unresolvedLowRows
    rw [hV]
  · intro rows r hr hlow hp
    unfold unresolvedLowRows
    rw [List.mem_filter]
    refine ⟨hr, ?_⟩
    simp only [decide_eq_true_eq]
    refine ⟨hlow, ?_⟩
    rw [hp]
    unfold selValue
    rw [h]
    rfl

/-- A spec with one low-confidence mapping `p` and one extracted model
mentioning `p`. -/
def c10Spec : AnalysisSpec :=
  { variableMappings := [⟨"p", none, [⟨"Q1", mkRat 1 2⟩]⟩]
    mainModels := [⟨"m1", "gaussian", "p", ["p"], [], []⟩]
    robustnessCount := 0
    exploratoryCount := 0
    expectedColumns := []
    warnings := [] }

/-- Witness for C10: with the selection `{p: ""}`, applying mappings equals
applying the selection-free record, `p` remaps to itself, and the
low-confidence row for `p` still blocks. -/
theorem C10_empty_string_selection_witness :
    applyMappingsToSpec c10Spec [("p", "")] =
      applyMappingsToSpec c10Spec (eraseKey [("p", "")] "p") ∧
    buildLayoutsFromExtractedModels c10Spec [("p", "")] =
      buildLayoutsFromExtractedModels c10Spec (eraseKey [("p", "")] "p") ∧
    mapVar [("p", "")] "p" = "p" ∧
    toMappingRow ⟨"p", none, [⟨"Q1", mkRat 1 2⟩]⟩ ∈
      unresolvedLowRows (getMappingRows c10Spec) [("p", "")] := by
  have h := C10_empty_string_selection [("p", "")] "p" (by decide)
  exact ⟨h.1 c10Spec, h.2.1 c10Spec, h.2.2.2.1,
    h.2.2.2.2.2 (getMappingRows c10Spec) _ (by decide) (by decide) (by decide)⟩

end RW
